import Mathlib

/-!
Verification development for the ppt-helper repository (src/main.py, src/ppt.py).

The program queries a local LLM for a JSON color/typography theme, validates it
against a pydantic Schema, then edits the theme XML part of the default
python-pptx template (background fill, ten color-scheme entries, two fonts)
and saves the result.

Modelling choices:
  * Python ints are Lean Int; machine overflow does not occur.
  * The parsed XML element tree (an lxml tree) is represented flatly as the
    preorder list of its elements, each carrying its path from the root
    (list of child indices), its tag (with namespace prefix, as in the
    source's xpath expressions) and its attribute list.  Document order of
    the stored list is the tree's preorder; the source's find/xpath calls
    become list searches and in-place attribute mutation becomes a map.
  * Fallible Python code (raise ValueError) is Except String.
  * The streamed ollama request and the writes performed by main.py are
    modelled as an effect trace.
-/

/-! ## Python hex formatting, from rgb_tuple_to_hex (src/ppt.py lines 10-11) -/

/-- Single uppercase hexadecimal digit character for a value below 16. -/
def hexDigitChar (n : Nat) : Char :=
  if n < 10 then Char.ofNat (48 + n) else Char.ofNat (55 + n)

/-- Fuel-driven most-significant-first hex digit expansion; with fuel above
the argument this is the full hex expansion (empty for 0). -/
def hexDigitsAux : Nat → Nat → List Char
  | 0, _ => []
  | fuel + 1, n =>
    if n = 0 then [] else hexDigitsAux fuel (n / 16) ++ [hexDigitChar (n % 16)]

/-- Uppercase hex digits of a natural number, no padding; 0 renders as "0",
exactly as Python's format(n, 'X'). -/
def hexDigits (n : Nat) : List Char :=
  if n = 0 then ['0'] else hexDigitsAux (n + 1) n

/-- Zero padding to total width 2, where pre counts characters (the sign)
already in front of the digits, as in Python's format spec 02X. -/
def zeroPad2 (pre : Nat) (ds : List Char) : List Char :=
  List.replicate (2 - (ds.length + pre)) '0' ++ ds

/-- Python f-string formatting with spec 02X on an int: uppercase hex,
zero-padded to width 2, sign in front of the padding for negatives. -/
def pyFormat02X (x : Int) : String :=
  if x < 0 then String.mk ('-' :: zeroPad2 1 (hexDigits x.natAbs))
  else String.mk (zeroPad2 0 (hexDigits x.toNat))

/-- Embedding of rgb_tuple_to_hex (src/ppt.py lines 10-11). -/
def rgb_tuple_to_hex (c : Int × Int × Int) : String :=
  pyFormat02X c.1 ++ pyFormat02X c.2.1 ++ pyFormat02X c.2.2

/-- Character class of the 6-digit uppercase hex alphabet. -/
def isUpperHexDigit (c : Char) : Bool :=
  ('0' ≤ c && c ≤ '9') || ('A' ≤ c && c ≤ 'F')

/-- Numeric value of an uppercase hex digit character. -/
def hexCharVal (c : Char) : Nat :=
  if c ≤ '9' then c.toNat - 48 else c.toNat - 55

/-- Value encoded by a two-digit uppercase hex pair (one color component). -/
def hexPairVal (c1 c2 : Char) : Nat :=
  16 * hexCharVal c1 + hexCharVal c2

/-! ## The pydantic data model (src/ppt.py lines 14-70) -/

/-- Embedding of ColorChoice (src/ppt.py lines 20-22) in its intended,
fully-populated form: an RGB triple plus a rationale.  (The declaration bug
around the color field's default is modelled separately below.) -/
structure ColorChoice where
  color : Int × Int × Int
  rationale : String
deriving Repr, DecidableEq

/-- Embedding of FontChoice (src/ppt.py lines 25-28). -/
structure FontChoice where
  name : String
  size : Int
  rationale : String
deriving Repr, DecidableEq

/-- Embedding of ThemeFonts (src/ppt.py lines 31-33). -/
structure ThemeFonts where
  header : FontChoice
  body : FontChoice
deriving Repr, DecidableEq

/-- Embedding of ThemeColors (src/ppt.py lines 36-46). -/
structure ThemeColors where
  dark : ColorChoice
  light : ColorChoice
  accent1 : ColorChoice
  accent2 : ColorChoice
  accent3 : ColorChoice
  accent4 : ColorChoice
  accent5 : ColorChoice
  accent6 : ColorChoice
  hyperlink : ColorChoice
  followed_hyperlink : ColorChoice
deriving Repr, DecidableEq

/-- Embedding of ThemeColors.to_pptx_format (src/ppt.py lines 48-60);
the list preserves the Python dict's insertion order. -/
def ThemeColors.to_pptx_format (tc : ThemeColors) : List (String × String) :=
  [ ("dk2", rgb_tuple_to_hex tc.dark.color),
    ("lt2", rgb_tuple_to_hex tc.light.color),
    ("accent1", rgb_tuple_to_hex tc.accent1.color),
    ("accent2", rgb_tuple_to_hex tc.accent2.color),
    ("accent3", rgb_tuple_to_hex tc.accent3.color),
    ("accent4", rgb_tuple_to_hex tc.accent4.color),
    ("accent5", rgb_tuple_to_hex tc.accent5.color),
    ("accent6", rgb_tuple_to_hex tc.accent6.color),
    ("hlink", rgb_tuple_to_hex tc.hyperlink.color),
    ("folHlink", rgb_tuple_to_hex tc.followed_hyperlink.color) ]

/-- Embedding of Theme (src/ppt.py lines 63-65). -/
structure Theme where
  colors : ThemeColors
  fonts : ThemeFonts
deriving Repr, DecidableEq

/-- Embedding of Schema (src/ppt.py lines 68-70). -/
structure Schema where
  background : ColorChoice
  theme : Theme
deriving Repr, DecidableEq

/-! ## Pydantic validation of ColorChoice (src/ppt.py lines 14-22)

The source declares

  RGBType = Annotated[conlist(item_type=conint(ge=0, le=255), ...), "..."]
  class ColorChoice(BaseModel):
      color: tuple[int, int, int] = RGBType,
      rationale: str

Because of the trailing comma, RGBType is not the annotation of color: the
annotation is the bare tuple[int, int, int] (no 0-255 bounds) and the
one-element tuple (RGBType,) is the field's default value, which pydantic
keeps without validating it.  The model below follows pydantic v2 semantics
for exactly this declaration: a present color must be a JSON array of three
integers (any integers), an absent color yields the unvalidated default. -/

/-- A JSON value, as received from the model endpoint. -/
inductive JVal where
  | null : JVal
  | bool (b : Bool) : JVal
  | num (n : Int) : JVal
  | str (s : String) : JVal
  | arr (xs : List JVal) : JVal
  | obj (kvs : List (String × JVal)) : JVal
deriving Repr, BEq

/-- The runtime value held by the color field after validation: either a
validated integer triple, or the unvalidated default (RGBType,) left in
place when the JSON object omits the field. -/
inductive PyColorValue where
  | rgb (r g b : Int) : PyColorValue
  | annotationDefault : PyColorValue
deriving Repr, DecidableEq

/-- Result of pydantic validation of a ColorChoice object. -/
structure ValidatedColorChoice where
  color : PyColorValue
  rationale : String
deriving Repr, DecidableEq

/-- Field lookup in a JSON object. -/
def jLookup (kvs : List (String × JVal)) (k : String) : Option JVal :=
  (kvs.find? (fun e => e.1 == k)).map (·.2)

/-- Pydantic v2 validation of ColorChoice as declared in src/ppt.py lines
20-22: color, when present, must be an array of exactly three integers with
no range constraint (the annotation is the bare tuple[int, int, int]); when
absent the unvalidated default is used; rationale must be a string. -/
def validateColorChoice (j : JVal) : Except String ValidatedColorChoice :=
  match j with
  | JVal.obj kvs =>
    let colorVal : Except String PyColorValue :=
      match jLookup kvs "color" with
      | none => Except.ok PyColorValue.annotationDefault
      | some (JVal.arr [JVal.num a, JVal.num b, JVal.num c]) =>
          Except.ok (PyColorValue.rgb a b c)
      | some _ => Except.error "color: a tuple of three integers is required"
    match colorVal with
    | Except.error e => Except.error e
    | Except.ok cv =>
      match jLookup kvs "rationale" with
      | some (JVal.str s) => Except.ok { color := cv, rationale := s }
      | some _ => Except.error "rationale: a string is required"
      | none => Except.error "rationale: field required"
  | _ => Except.error "a JSON object is required"

/-! ## The XML element tree (theme part), flattened to preorder

An element of the parsed theme XML is stored with its path from the root
element (list of child indices), its namespace-prefixed tag, and its
attribute list.  The whole document is the preorder list of its elements. -/

/-- One element of the parsed XML tree. -/
structure XElem where
  path : List Nat
  tag : String
  attrs : List (String × String)
deriving Repr, DecidableEq

/-- A parsed XML document: its elements in preorder (document order). -/
abbrev Doc := List XElem

/-- The path/tag skeleton of a document; attribute edits leave it fixed. -/
def skel (d : Doc) : List (List Nat × String) :=
  d.map (fun e => (e.path, e.tag))

/-- Tag of the element at a given path in a skeleton. -/
def tagAtS (sk : List (List Nat × String)) (q : List Nat) : Option String :=
  (sk.find? (fun e => decide (e.1 = q))).map (·.2)

/-- Tag of the element at a given path in a document. -/
def tagAt (d : Doc) (q : List Nat) : Option String :=
  tagAtS (skel d) q

/-- Whether the second path is a proper descendant of the first
(the .// axis of the source's find and xpath calls). -/
def isStrictlyUnder : List Nat → List Nat → Bool
  | [], [] => false
  | [], _ :: _ => true
  | _ :: _, [] => false
  | i :: bs, j :: qs => i == j && isStrictlyUnder bs qs

/-- First proper descendant of base carrying the given tag, in document
order, on a skeleton. -/
def findDescS (sk : List (List Nat × String)) (base : List Nat) (tag : String) :
    Option (List Nat) :=
  (sk.find? (fun e => isStrictlyUnder base e.1 && e.2 == tag)).map (·.1)

/-- Embedding of elem.find(".//a:TAG"): first proper descendant with the
tag, in document order (src/ppt.py lines 77, 105). -/
def findDesc (d : Doc) (base : List Nat) (tag : String) : Option (List Nat) :=
  findDescS (skel d) base tag

/-- Paths matched by the absolute xpath //a:themeElements/a:clrScheme/a:KEY
on a skeleton: elements tagged a:KEY whose parent is an a:clrScheme whose
parent is an a:themeElements (at any depth), in document order. -/
def clrKeyPathsS (sk : List (List Nat × String)) (key : String) : List (List Nat) :=
  (sk.filter (fun e =>
      decide (2 ≤ e.1.length) && e.2 == "a:" ++ key
      && tagAtS sk e.1.dropLast == some "a:clrScheme"
      && tagAtS sk e.1.dropLast.dropLast == some "a:themeElements")).map (·.1)

/-- Embedding of theme_xml.xpath("//a:themeElements/a:clrScheme/a:KEY")
(src/ppt.py line 94). -/
def xpathClrKey (d : Doc) (key : String) : List (List Nat) :=
  clrKeyPathsS (skel d) key

/-- Attribute lookup in an attribute list. -/
def lookupA : List (String × String) → String → Option String
  | [], _ => none
  | (k, w) :: rest, a => if k = a then some w else lookupA rest a

/-- Attribute update as performed by lxml's elem.set: replace the value in
place if the name exists, append otherwise. -/
def updAttrs : List (String × String) → String → String → List (String × String)
  | [], a, v => [(a, v)]
  | (k, w) :: rest, a, v =>
    if k = a then (k, v) :: rest else (k, w) :: updAttrs rest a v

/-- In-place attribute write on the element at path p of the document. -/
def setAttrAt (d : Doc) (p : List Nat) (a v : String) : Doc :=
  d.map (fun e => if e.path = p then { e with attrs := updAttrs e.attrs a v } else e)

/-- Attribute value at a path of the document. -/
def attrAt (d : Doc) (q : List Nat) (a : String) : Option String :=
  (d.find? (fun e => decide (e.path = q))).bind (fun e => lookupA e.attrs a)

/-! ## The theme-editing functions of src/ppt.py -/

/-- Embedding of get_color_scheme_elem followed by the srgbClr write of
modify_secondary_color (src/ppt.py lines 93-108).  The xpath call returns
the key elements in document order and the first is taken; an empty result
raises.  The subsequent isinstance _Element check on that element never
fails (tag xpath results are elements) and is not modelled.  find(".//a:srgbClr")
takes the first srgbClr proper descendant; a missing one fails the
isinstance CT_SRgbColor check and raises (elements parsed by the pptx
parser with that tag always carry that class). -/
def modify_secondary_color (d : Doc) (key color : String) : Except String Doc :=
  match (xpathClrKey d key).head? with
  | none => Except.error (key ++ " not found in theme")
  | some p =>
    match findDesc d p "a:srgbClr" with
    | none => Except.error "srgbClr is not a _Element"
    | some q => Except.ok (setAttrAt d q "val" color)

/-- The for-loop of create_ppt over the to_pptx_format entries (src/ppt.py
lines 123-128): each ValueError is caught, its message printed (collected
here in order), and the loop continues on the unmodified document. -/
def applyColors (entries : List (String × String)) (d : Doc) : Doc × List String :=
  match entries with
  | [] => (d, [])
  | (k, c) :: rest =>
    match modify_secondary_color d k c with
    | Except.ok d2 => applyColors rest d2
    | Except.error e =>
      let r := applyColors rest d
      (r.1, e :: r.2)

/-- Embedding of the inner set_font of set_fonts (src/ppt.py lines 81-87):
first descendant with the font tag under the font scheme root, then its
first a:latin descendant, whose typeface attribute is set; silently does
nothing when either xpath result is empty. -/
def set_font (d : Doc) (pf : List Nat) (fontTag fontName : String) : Doc :=
  match findDesc d pf fontTag with
  | none => d
  | some pm =>
    match findDesc d pm "a:latin" with
    | none => d
    | some pl => setAttrAt d pl "typeface" fontName

/-- Embedding of set_fonts (src/ppt.py lines 76-90): the first a:fontScheme
descendant of the root is located; a missing one fails the isinstance
_Element check and raises ValueError (uncaught by the caller); otherwise the
major and minor fonts are set in order. -/
def set_fonts (d : Doc) (hf bf : String) : Except String Doc :=
  match findDesc d [] "a:fontScheme" with
  | none => Except.error "Font scheme is not a _Element"
  | some pf => Except.ok (set_font (set_font d pf "a:majorFont" hf) pf "a:minorFont" bf)

/-! ## create_ppt (src/ppt.py lines 111-133) -/

/-- Slide-master background fill state of the in-memory presentation. -/
structure FillState where
  isSolid : Bool
  foreColor : Option (Int × Int × Int)
deriving Repr, DecidableEq

/-- The presentation state the program manipulates: the slide master's
background fill and the theme XML part. -/
structure PrsState where
  bgFill : FillState
  theme : Doc
deriving Repr, DecidableEq

/-- python-pptx RGBColor construction: three integers, each required to lie
in 0-255, else ValueError. -/
def RGBColorNew (r g b : Int) : Option (Int × Int × Int) :=
  if 0 ≤ r ∧ r ≤ 255 ∧ 0 ≤ g ∧ g ≤ 255 ∧ 0 ≤ b ∧ b ≤ 255 then some (r, g, b)
  else none

/-- Embedding of create_ppt (src/ppt.py lines 111-133), parameterised by the
template state tpl that Presentation() loads.  In order: the background fill
is made solid and its fore color set from the schema's background triple
(python-pptx's RGBColor range check may raise); parse_xml of the theme blob
yields a CT_OfficeStyleSheet exactly when the root element is a:theme, else
the isinstance check raises; the ten color-scheme entries are written with
each ValueError caught and printed; set_fonts runs outside that try (its
ValueError propagates); the modified blob is stored and the file saved.
Returns the saved state together with the printed error messages. -/
def create_ppt (s : Schema) (tpl : PrsState) : Except String (PrsState × List String) :=
  match RGBColorNew s.background.color.1 s.background.color.2.1 s.background.color.2.2 with
  | none => Except.error "RGBColor() takes three integer values 0-255"
  | some rgb =>
    let fill : FillState := { isSolid := true, foreColor := some rgb }
    if tagAt tpl.theme [] = some "a:theme" then
      let r := applyColors (s.theme.colors.to_pptx_format) tpl.theme
      match set_fonts r.1 s.theme.fonts.header.name s.theme.fonts.body.name with
      | Except.error e => Except.error e
      | Except.ok d2 => Except.ok ({ bgFill := fill, theme := d2 }, r.2)
    else Except.error "Theme part is not a CT_OfficeStyleSheet"

/-! ## Edit locations (for the frame theorems)

The locations create_ppt may write inside the theme XML, computed on the
template document: the val attribute of the first a:srgbClr proper
descendant of the first //a:themeElements/a:clrScheme/a:KEY element for each
of the ten keys, and the typeface attribute of the first a:latin under the
first a:majorFont resp. a:minorFont under the first a:fontScheme. -/

/-- The ten color-scheme keys written by create_ppt, in write order. -/
def tenKeys : List String :=
  ["dk2", "lt2", "accent1", "accent2", "accent3", "accent4", "accent5",
   "accent6", "hlink", "folHlink"]

/-- Path of the srgbClr element that the modify_secondary_color call for a
key would write, if every lookup succeeds. -/
def srgbEditLoc (d : Doc) (key : String) : Option (List Nat) :=
  ((xpathClrKey d key).head?).bind (fun p => findDesc d p "a:srgbClr")

/-- Path of the latin element that set_font would write for a font tag. -/
def latinEditLoc (d : Doc) (fontTag : String) : Option (List Nat) :=
  (findDesc d [] "a:fontScheme").bind (fun pf =>
    (findDesc d pf fontTag).bind (fun pm => findDesc d pm "a:latin"))

/-- All (path, attribute) pairs create_ppt may write in the theme document. -/
def themeEditLocs (d : Doc) : List (List Nat × String) :=
  (tenKeys.filterMap (srgbEditLoc d)).map (fun p => (p, "val"))
    ++ (["a:majorFont", "a:minorFont"].filterMap (latinEditLoc d)).map
        (fun p => (p, "typeface"))

/-- The error message the modify_secondary_color call for a key produces on
a document, if any. -/
def modifyOutcome (d : Doc) (key : String) : Option String :=
  match (xpathClrKey d key).head? with
  | none => some (key ++ " not found in theme")
  | some p =>
    match findDesc d p "a:srgbClr" with
    | none => some "srgbClr is not a _Element"
    | some _ => none

/-! ## The main script (src/main.py) -/

/-- Python str.isspace characters as relevant to str.strip (ASCII range;
the stripped stream is text). -/
def pyIsSpace (c : Char) : Bool :=
  c == ' ' || c == '\t' || c == '\n' || c == '\x0b' || c == '\x0c' || c == '\r'

/-- Python str.strip(): remove leading and trailing whitespace. -/
def pyStrip (s : String) : String :=
  String.mk (((s.data.dropWhile pyIsSpace).reverse.dropWhile pyIsSpace).reverse)

/-- Embedding of read_until_empty_line (src/main.py lines 24-30).  The
input stream is its list of lines (each line carries its newline, as Python
file iteration yields them).  Returns the joined collected lines together
with the lines left unconsumed in the stream: the loop stops at the first
line that strips to empty, consuming it but not collecting it, or at the end
of the stream. -/
def read_until_empty_line : List String → String × List String
  | [] => ("", [])
  | l :: ls =>
    if pyStrip l = "" then ("", ls)
    else
      let r := read_until_empty_line ls
      (l ++ r.1, r.2)

/-- Observable effects of one run of src/main.py. -/
inductive Effect where
  | genRequest : Effect
  | stdoutWrite (s : String) : Effect
  | save (path : String) : Effect
deriving Repr, DecidableEq

/-- Embedding of the streaming loop (src/main.py lines 45, 57-59): each
chunk's response field is written to stdout and appended to
full_str_response, in stream order. -/
def streamLoop (chunks : List String) : String × List Effect :=
  chunks.foldl (fun acc c => (acc.1 ++ c, acc.2 ++ [Effect.stdoutWrite c])) ("", [])

/-- Embedding of the module body of src/main.py (lines 45-63), parameterised
by the chunk responses the ollama stream yields, the pydantic validator for
Schema (abstract: model_validate_json either returns a Schema or raises),
the template state Presentation() loads, and the output directory.  One
generate request is issued; the stream is concatenated and echoed; the
concatenation is validated; on success create_ppt edits the theme parts and
saves dir/output.pptx.  A validation error or a create_ppt error aborts the
script before any save. -/
def programRun (chunks : List String) (validate : String → Option Schema)
    (tpl : PrsState) (dir : String) : List Effect :=
  let r := streamLoop chunks
  let pre := Effect.genRequest :: r.2
  match validate r.1 with
  | none => pre
  | some s =>
    match create_ppt s tpl with
    | Except.error _ => pre
    | Except.ok _ => pre ++ [Effect.save (dir ++ "/output.pptx")]

/-- Paths of the save effects of a trace. -/
def savesOf (es : List Effect) : List String :=
  es.filterMap (fun e => match e with | Effect.save p => some p | _ => none)

/-- Strings written to stdout by a trace, in order. -/
def stdoutsOf (es : List Effect) : List String :=
  es.filterMap (fun e => match e with | Effect.stdoutWrite s => some s | _ => none)

/-- Number of generate requests issued by a trace. -/
def genCount (es : List Effect) : Nat :=
  es.countP (fun e => match e with | Effect.genRequest => true | _ => false)

/-! ## Concrete data for witnesses

s0 mirrors the test schema in the source's __main__ block (src/ppt.py lines
136-198).  defaultThemeDoc models the theme1.xml part of the default
python-pptx template (Office theme): root a:theme, a:themeElements holding
the a:clrScheme with its twelve entries (dk1/lt1 carry a:sysClr, the other
ten a:srgbClr) and the a:fontScheme with major/minor latin fonts. -/

/-- A concrete fully-populated schema, as in the source's test block. -/
def s0 : Schema :=
  { background := { color := (255, 255, 255), rationale := "White background" },
    theme :=
    { colors :=
      { dark := { color := (0, 0, 0), rationale := "Black text" },
        light := { color := (255, 255, 255), rationale := "White background" },
        accent1 := { color := (0, 0, 255), rationale := "Blue accent" },
        accent2 := { color := (255, 0, 0), rationale := "Red accent" },
        accent3 := { color := (0, 255, 0), rationale := "Green accent" },
        accent4 := { color := (255, 255, 0), rationale := "Yellow accent" },
        accent5 := { color := (0, 255, 255), rationale := "Cyan accent" },
        accent6 := { color := (255, 0, 255), rationale := "Magenta accent" },
        hyperlink := { color := (0, 0, 255), rationale := "Blue hyperlink" },
        followed_hyperlink := { color := (128, 0, 128), rationale := "Purple" } },
      fonts :=
      { header := { name := "Comic Sans MS", size := 44, rationale := "Headers" },
        body := { name := "Comic Sans MS", size := 18, rationale := "Body" } } } }

/-- Model of the default template's theme part, flattened to preorder. -/
def defaultThemeDoc : Doc :=
  [ { path := [], tag := "a:theme", attrs := [("name", "Office Theme")] },
    { path := [0], tag := "a:themeElements", attrs := [] },
    { path := [0, 0], tag := "a:clrScheme", attrs := [("name", "Office")] },
    { path := [0, 0, 0], tag := "a:dk1", attrs := [] },
    { path := [0, 0, 0, 0], tag := "a:sysClr",
      attrs := [("val", "windowText"), ("lastClr", "000000")] },
    { path := [0, 0, 1], tag := "a:lt1", attrs := [] },
    { path := [0, 0, 1, 0], tag := "a:sysClr",
      attrs := [("val", "window"), ("lastClr", "FFFFFF")] },
    { path := [0, 0, 2], tag := "a:dk2", attrs := [] },
    { path := [0, 0, 2, 0], tag := "a:srgbClr", attrs := [("val", "1F497D")] },
    { path := [0, 0, 3], tag := "a:lt2", attrs := [] },
    { path := [0, 0, 3, 0], tag := "a:srgbClr", attrs := [("val", "EEECE1")] },
    { path := [0, 0, 4], tag := "a:accent1", attrs := [] },
    { path := [0, 0, 4, 0], tag := "a:srgbClr", attrs := [("val", "4F81BD")] },
    { path := [0, 0, 5], tag := "a:accent2", attrs := [] },
    { path := [0, 0, 5, 0], tag := "a:srgbClr", attrs := [("val", "C0504D")] },
    { path := [0, 0, 6], tag := "a:accent3", attrs := [] },
    { path := [0, 0, 6, 0], tag := "a:srgbClr", attrs := [("val", "9BBB59")] },
    { path := [0, 0, 7], tag := "a:accent4", attrs := [] },
    { path := [0, 0, 7, 0], tag := "a:srgbClr", attrs := [("val", "8064A2")] },
    { path := [0, 0, 8], tag := "a:accent5", attrs := [] },
    { path := [0, 0, 8, 0], tag := "a:srgbClr", attrs := [("val", "4BACC6")] },
    { path := [0, 0, 9], tag := "a:accent6", attrs := [] },
    { path := [0, 0, 9, 0], tag := "a:srgbClr", attrs := [("val", "F79646")] },
    { path := [0, 0, 10], tag := "a:hlink", attrs := [] },
    { path := [0, 0, 10, 0], tag := "a:srgbClr", attrs := [("val", "0000FF")] },
    { path := [0, 0, 11], tag := "a:folHlink", attrs := [] },
    { path := [0, 0, 11, 0], tag := "a:srgbClr", attrs := [("val", "800080")] },
    { path := [0, 1], tag := "a:fontScheme", attrs := [("name", "Office")] },
    { path := [0, 1, 0], tag := "a:majorFont", attrs := [] },
    { path := [0, 1, 0, 0], tag := "a:latin", attrs := [("typeface", "Calibri")] },
    { path := [0, 1, 1], tag := "a:minorFont", attrs := [] },
    { path := [0, 1, 1, 0], tag := "a:latin", attrs := [("typeface", "Calibri")] },
    { path := [0, 2], tag := "a:fmtScheme", attrs := [("name", "Office")] } ]

/-- The default template state as loaded by Presentation(). -/
def defaultPrs : PrsState :=
  { bgFill := { isSolid := false, foreColor := none }, theme := defaultThemeDoc }

/-- A theme part whose root is a CT_OfficeStyleSheet but which contains no
a:fontScheme element (and none of the color-scheme keys). -/
def tplNoFonts : PrsState :=
  { bgFill := { isSolid := false, foreColor := none },
    theme := [ { path := [], tag := "a:theme", attrs := [] } ] }

/-- The intended 0-255 range of each component of a color choice (what the
conint bound in RGBType was meant to impose). -/
def colorInRange (cc : ColorChoice) : Prop :=
  0 ≤ cc.color.1 ∧ cc.color.1 ≤ 255
    ∧ 0 ≤ cc.color.2.1 ∧ cc.color.2.1 ≤ 255
    ∧ 0 ≤ cc.color.2.2 ∧ cc.color.2.2 ≤ 255

instance (cc : ColorChoice) : Decidable (colorInRange cc) := by
  unfold colorInRange
  infer_instance

/-- The theme document produced by running create_ppt on s0 and the default
template (the ten srgbClr values and the two latin typefaces rewritten). -/
def resultThemeDoc0 : Doc :=
  [ { path := [], tag := "a:theme", attrs := [("name", "Office Theme")] },
    { path := [0], tag := "a:themeElements", attrs := [] },
    { path := [0, 0], tag := "a:clrScheme", attrs := [("name", "Office")] },
    { path := [0, 0, 0], tag := "a:dk1", attrs := [] },
    { path := [0, 0, 0, 0], tag := "a:sysClr",
      attrs := [("val", "windowText"), ("lastClr", "000000")] },
    { path := [0, 0, 1], tag := "a:lt1", attrs := [] },
    { path := [0, 0, 1, 0], tag := "a:sysClr",
      attrs := [("val", "window"), ("lastClr", "FFFFFF")] },
    { path := [0, 0, 2], tag := "a:dk2", attrs := [] },
    { path := [0, 0, 2, 0], tag := "a:srgbClr", attrs := [("val", "000000")] },
    { path := [0, 0, 3], tag := "a:lt2", attrs := [] },
    { path := [0, 0, 3, 0], tag := "a:srgbClr", attrs := [("val", "FFFFFF")] },
    { path := [0, 0, 4], tag := "a:accent1", attrs := [] },
    { path := [0, 0, 4, 0], tag := "a:srgbClr", attrs := [("val", "0000FF")] },
    { path := [0, 0, 5], tag := "a:accent2", attrs := [] },
    { path := [0, 0, 5, 0], tag := "a:srgbClr", attrs := [("val", "FF0000")] },
    { path := [0, 0, 6], tag := "a:accent3", attrs := [] },
    { path := [0, 0, 6, 0], tag := "a:srgbClr", attrs := [("val", "00FF00")] },
    { path := [0, 0, 7], tag := "a:accent4", attrs := [] },
    { path := [0, 0, 7, 0], tag := "a:srgbClr", attrs := [("val", "FFFF00")] },
    { path := [0, 0, 8], tag := "a:accent5", attrs := [] },
    { path := [0, 0, 8, 0], tag := "a:srgbClr", attrs := [("val", "00FFFF")] },
    { path := [0, 0, 9], tag := "a:accent6", attrs := [] },
    { path := [0, 0, 9, 0], tag := "a:srgbClr", attrs := [("val", "FF00FF")] },
    { path := [0, 0, 10], tag := "a:hlink", attrs := [] },
    { path := [0, 0, 10, 0], tag := "a:srgbClr", attrs := [("val", "0000FF")] },
    { path := [0, 0, 11], tag := "a:folHlink", attrs := [] },
    { path := [0, 0, 11, 0], tag := "a:srgbClr", attrs := [("val", "800080")] },
    { path := [0, 1], tag := "a:fontScheme", attrs := [("name", "Office")] },
    { path := [0, 1, 0], tag := "a:majorFont", attrs := [] },
    { path := [0, 1, 0, 0], tag := "a:latin",
      attrs := [("typeface", "Comic Sans MS")] },
    { path := [0, 1, 1], tag := "a:minorFont", attrs := [] },
    { path := [0, 1, 1, 0], tag := "a:latin",
      attrs := [("typeface", "Comic Sans MS")] },
    { path := [0, 2], tag := "a:fmtScheme", attrs := [("name", "Office")] } ]

/-- The presentation state saved by create_ppt s0 defaultPrs. -/
def resultPrs0 : PrsState :=
  { bgFill := { isSolid := true, foreColor := some (255, 255, 255) },
    theme := resultThemeDoc0 }

/-! ## Lemmas on the hex formatter -/

theorem hexDigitsAux_zero (fuel : Nat) : hexDigitsAux fuel 0 = [] := by
  cases fuel <;> simp [hexDigitsAux]

theorem hexDigitsAux_small (fuel m : Nat) (h0 : 0 < m) (h16 : m < 16) :
    hexDigitsAux (fuel + 1) m = [hexDigitChar m] := by
  have hm : m ≠ 0 := Nat.pos_iff_ne_zero.mp h0
  have hd : m / 16 = 0 := Nat.div_eq_of_lt h16
  have hr : m % 16 = m := Nat.mod_eq_of_lt h16
  simp [hexDigitsAux, hm, hd, hr, hexDigitsAux_zero]

theorem pyFormat02X_data (n : Nat) (h : n < 256) :
    (pyFormat02X (n : Int)).data = [hexDigitChar (n / 16), hexDigitChar (n % 16)] := by
  have hneg : ¬((n : Int) < 0) := Int.not_lt.mpr (Int.natCast_nonneg n)
  have htn : (n : Int).toNat = n := Int.toNat_natCast n
  rcases Nat.eq_zero_or_pos n with h0 | h0
  · subst h0
    simp [pyFormat02X]
    rfl
  · obtain ⟨f, rfl⟩ : ∃ f, n = f + 1 := ⟨n - 1, (Nat.succ_pred_eq_of_pos h0).symm⟩
    rcases Nat.lt_or_ge (f + 1) 16 with h16 | h16
    · have hd : (f + 1) / 16 = 0 := Nat.div_eq_of_lt h16
      have hr : (f + 1) % 16 = f + 1 := Nat.mod_eq_of_lt h16
      have hn : f + 1 ≠ 0 := Nat.succ_ne_zero f
      simp only [pyFormat02X, hneg, if_false, htn, hexDigits, hn, if_false,
        hexDigitsAux_small (f + 1) (f + 1) h0 h16, zeroPad2, hd, hr]
      rfl
    · have hn : f + 1 ≠ 0 := Nat.succ_ne_zero f
      have hq0 : 0 < (f + 1) / 16 := Nat.div_pos h16 (by norm_num)
      have hq16 : (f + 1) / 16 < 16 := by omega
      have hfuel : hexDigitsAux (f + 1 + 1) (f + 1)
          = hexDigitsAux (f + 1) ((f + 1) / 16) ++ [hexDigitChar ((f + 1) % 16)] := by
        simp [hexDigitsAux, hn]
      have hsm : hexDigitsAux (f + 1) ((f + 1) / 16) = [hexDigitChar ((f + 1) / 16)] :=
        hexDigitsAux_small f ((f + 1) / 16) hq0 hq16
      simp only [pyFormat02X, hneg, if_false, htn, hexDigits, hn, if_false, hfuel, hsm,
        zeroPad2]
      rfl

theorem pyFormat02X_length (n : Nat) (h : n < 256) :
    (pyFormat02X (n : Int)).length = 2 := by
  show (pyFormat02X (n : Int)).data.length = 2
  rw [pyFormat02X_data n h]
  rfl

theorem hexDigitChar_isUpper : ∀ k, k < 16 → isUpperHexDigit (hexDigitChar k) = true := by
  decide

theorem hexCharVal_hexDigitChar : ∀ k, k < 16 → hexCharVal (hexDigitChar k) = k := by
  decide

theorem pyFormat02X_chars (n : Nat) (h : n < 256) :
    ∀ c ∈ (pyFormat02X (n : Int)).data, isUpperHexDigit c = true := by
  rw [pyFormat02X_data n h]
  intro c hc
  simp only [List.mem_cons, List.not_mem_nil, or_false] at hc
  rcases hc with rfl | rfl
  · exact hexDigitChar_isUpper (n / 16) (Nat.div_lt_of_lt_mul (by omega))
  · exact hexDigitChar_isUpper (n % 16) (Nat.mod_lt n (by norm_num))

/-- The two formatted digits determine the number again (for bytes). -/
theorem pyFormat02X_inj (m n : Nat) (hm : m < 256) (hn : n < 256)
    (h : pyFormat02X (m : Int) = pyFormat02X (n : Int)) : m = n := by
  have hd := congrArg String.data h
  rw [pyFormat02X_data m hm, pyFormat02X_data n hn] at hd
  have h1 : hexDigitChar (m / 16) = hexDigitChar (n / 16) := by
    injection hd with a b
  have h2 : hexDigitChar (m % 16) = hexDigitChar (n % 16) := by
    injection hd with a b
    injection b with c e
  have e1 : m / 16 = n / 16 := by
    have := congrArg hexCharVal h1
    rwa [hexCharVal_hexDigitChar _ (Nat.div_lt_of_lt_mul (by omega)),
      hexCharVal_hexDigitChar _ (Nat.div_lt_of_lt_mul (by omega))] at this
  have e2 : m % 16 = n % 16 := by
    have := congrArg hexCharVal h2
    rwa [hexCharVal_hexDigitChar _ (Nat.mod_lt m (by norm_num)),
      hexCharVal_hexDigitChar _ (Nat.mod_lt n (by norm_num))] at this
  omega

theorem pyFormat02X_int_data (x : Int) (h0 : 0 ≤ x) (h255 : x ≤ 255) :
    (pyFormat02X x).data = [hexDigitChar (x.toNat / 16), hexDigitChar (x.toNat % 16)] := by
  have hx : ((x.toNat : Nat) : Int) = x := Int.toNat_of_nonneg h0
  have hlt : x.toNat < 256 := by omega
  rw [← hx]
  exact pyFormat02X_data x.toNat hlt

theorem pyFormat02X_int_inj (x y : Int) (hx0 : 0 ≤ x) (hx255 : x ≤ 255)
    (hy0 : 0 ≤ y) (hy255 : y ≤ 255)
    (h : (pyFormat02X x).data = (pyFormat02X y).data) : x = y := by
  have hxx : ((x.toNat : Nat) : Int) = x := Int.toNat_of_nonneg hx0
  have hyy : ((y.toNat : Nat) : Int) = y := Int.toNat_of_nonneg hy0
  have hxlt : x.toNat < 256 := by omega
  have hylt : y.toNat < 256 := by omega
  have : x.toNat = y.toNat := by
    apply pyFormat02X_inj x.toNat y.toNat hxlt hylt
    apply String.ext
    rw [hxx, hyy]
    exact h
  omega

theorem rgb_tuple_to_hex_data (r g b : Int) :
    (rgb_tuple_to_hex (r, g, b)).data =
      (pyFormat02X r).data ++ (pyFormat02X g).data ++ (pyFormat02X b).data := by
  show ((pyFormat02X r ++ pyFormat02X g) ++ pyFormat02X b).data = _
  rw [String.data_append, String.data_append]

theorem rgb_tuple_to_hex_length (r g b : Int)
    (hr0 : 0 ≤ r) (hr : r ≤ 255) (hg0 : 0 ≤ g) (hg : g ≤ 255)
    (hb0 : 0 ≤ b) (hb : b ≤ 255) :
    (rgb_tuple_to_hex (r, g, b)).length = 6 := by
  show (rgb_tuple_to_hex (r, g, b)).data.length = 6
  rw [rgb_tuple_to_hex_data r g b,
    pyFormat02X_int_data r hr0 hr, pyFormat02X_int_data g hg0 hg,
    pyFormat02X_int_data b hb0 hb]
  rfl

theorem rgb_tuple_to_hex_chars (r g b : Int)
    (hr0 : 0 ≤ r) (hr : r ≤ 255) (hg0 : 0 ≤ g) (hg : g ≤ 255)
    (hb0 : 0 ≤ b) (hb : b ≤ 255) :
    ∀ c ∈ (rgb_tuple_to_hex (r, g, b)).data, isUpperHexDigit c = true := by
  rw [rgb_tuple_to_hex_data r g b]
  intro c hc
  rcases List.mem_append.mp hc with hc2 | hc2
  · rcases List.mem_append.mp hc2 with hc3 | hc3
    · have hlt : r.toNat < 256 := by omega
      have := pyFormat02X_chars r.toNat hlt
      rw [Int.toNat_of_nonneg hr0] at this
      exact this c hc3
    · have hlt : g.toNat < 256 := by omega
      have := pyFormat02X_chars g.toNat hlt
      rw [Int.toNat_of_nonneg hg0] at this
      exact this c hc3
  · have hlt : b.toNat < 256 := by omega
    have := pyFormat02X_chars b.toNat hlt
    rw [Int.toNat_of_nonneg hb0] at this
    exact this c hc2

theorem pyFormat02X_digits_parse (n : Nat) (h : n < 256) :
    hexPairVal (hexDigitChar (n / 16)) (hexDigitChar (n % 16)) = n := by
  unfold hexPairVal
  rw [hexCharVal_hexDigitChar _ (Nat.div_lt_of_lt_mul (by omega)),
    hexCharVal_hexDigitChar _ (Nat.mod_lt n (by norm_num))]
  exact Nat.div_add_mod n 16

theorem rgb_tuple_to_hex_digits (r g b : Int)
    (hr0 : 0 ≤ r) (hr : r ≤ 255) (hg0 : 0 ≤ g) (hg : g ≤ 255)
    (hb0 : 0 ≤ b) (hb : b ≤ 255) :
    (rgb_tuple_to_hex (r, g, b)).data
      = [hexDigitChar (r.toNat / 16), hexDigitChar (r.toNat % 16),
         hexDigitChar (g.toNat / 16), hexDigitChar (g.toNat % 16),
         hexDigitChar (b.toNat / 16), hexDigitChar (b.toNat % 16)] := by
  rw [rgb_tuple_to_hex_data r g b, pyFormat02X_int_data r hr0 hr,
    pyFormat02X_int_data g hg0 hg, pyFormat02X_int_data b hb0 hb]
  rfl

theorem rgb_tuple_to_hex_inj (r g b r2 g2 b2 : Int)
    (hr0 : 0 ≤ r) (hr : r ≤ 255) (hg0 : 0 ≤ g) (hg : g ≤ 255)
    (hb0 : 0 ≤ b) (hb : b ≤ 255)
    (hr20 : 0 ≤ r2) (hr2 : r2 ≤ 255) (hg20 : 0 ≤ g2) (hg2 : g2 ≤ 255)
    (hb20 : 0 ≤ b2) (hb2 : b2 ≤ 255)
    (h : rgb_tuple_to_hex (r, g, b) = rgb_tuple_to_hex (r2, g2, b2)) :
    r = r2 ∧ g = g2 ∧ b = b2 := by
  have hd := congrArg String.data h
  rw [rgb_tuple_to_hex_data r g b, rgb_tuple_to_hex_data r2 g2 b2] at hd
  have len2 : ∀ x : Int, 0 ≤ x → x ≤ 255 → (pyFormat02X x).data.length = 2 := by
    intro x h0 h255
    rw [pyFormat02X_int_data x h0 h255]
    rfl
  have hsplit1 := List.append_inj hd (by
    rw [List.length_append, List.length_append, len2 r hr0 hr, len2 g hg0 hg,
      len2 r2 hr20 hr2, len2 g2 hg20 hg2])
  have hsplit2 := List.append_inj hsplit1.1 (by rw [len2 r hr0 hr, len2 r2 hr20 hr2])
  refine ⟨pyFormat02X_int_inj r r2 hr0 hr hr20 hr2 hsplit2.1,
    pyFormat02X_int_inj g g2 hg0 hg hg20 hg2 hsplit2.2,
    pyFormat02X_int_inj b b2 hb0 hb hb20 hb2 hsplit1.2⟩

/-! ## Frame lemmas on the document model -/

theorem skel_setAttrAt (d : Doc) (p : List Nat) (a v : String) :
    skel (setAttrAt d p a v) = skel d := by
  induction d with
  | nil => rfl
  | cons e d ih =>
    simp only [setAttrAt, skel, List.map_cons] at *
    by_cases hp : e.path = p
    · simp [hp, ih]
    · simp [hp, ih]

theorem tagAt_setAttrAt (d : Doc) (p : List Nat) (a v : String) (q : List Nat) :
    tagAt (setAttrAt d p a v) q = tagAt d q := by
  unfold tagAt
  rw [skel_setAttrAt]

theorem findDesc_setAttrAt (d : Doc) (p : List Nat) (a v : String)
    (base : List Nat) (t : String) :
    findDesc (setAttrAt d p a v) base t = findDesc d base t := by
  unfold findDesc
  rw [skel_setAttrAt]

theorem xpathClrKey_setAttrAt (d : Doc) (p : List Nat) (a v : String) (key : String) :
    xpathClrKey (setAttrAt d p a v) key = xpathClrKey d key := by
  unfold xpathClrKey
  rw [skel_setAttrAt]

theorem srgbEditLoc_setAttrAt (d : Doc) (p : List Nat) (a v : String) (key : String) :
    srgbEditLoc (setAttrAt d p a v) key = srgbEditLoc d key := by
  unfold srgbEditLoc
  rw [xpathClrKey_setAttrAt]
  cases (xpathClrKey d key).head? with
  | none => rfl
  | some q => simp [findDesc_setAttrAt]

theorem modifyOutcome_setAttrAt (d : Doc) (p : List Nat) (a v : String) (key : String) :
    modifyOutcome (setAttrAt d p a v) key = modifyOutcome d key := by
  unfold modifyOutcome
  rw [xpathClrKey_setAttrAt]
  cases (xpathClrKey d key).head? with
  | none => rfl
  | some q => simp [findDesc_setAttrAt]

theorem lookupA_updAttrs_ne (ats : List (String × String)) (a v b : String)
    (h : b ≠ a) : lookupA (updAttrs ats a v) b = lookupA ats b := by
  induction ats with
  | nil => simp [updAttrs, lookupA, Ne.symm h]
  | cons kw rest ih =>
    obtain ⟨k, w⟩ := kw
    by_cases hk : k = a
    · subst hk
      simp [updAttrs, lookupA, Ne.symm h]
    · simp [updAttrs, lookupA, hk, ih]

theorem path_setAttrAt_elem (e : XElem) (p : List Nat) (a v : String) :
    (if e.path = p then { e with attrs := updAttrs e.attrs a v } else e).path = e.path := by
  by_cases h : e.path = p <;> simp [h]

theorem attrAt_setAttrAt_ne (d : Doc) (p : List Nat) (a v : String)
    (q : List Nat) (b : String) (h : q ≠ p) :
    attrAt (setAttrAt d p a v) q b = attrAt d q b := by
  induction d with
  | nil => rfl
  | cons e d ih =>
    show attrAt ((if e.path = p then { e with attrs := updAttrs e.attrs a v } else e)
      :: setAttrAt d p a v) q b = attrAt (e :: d) q b
    by_cases hq : e.path = q
    · have hep : ¬(e.path = p) := fun hep => h (hq ▸ hep ▸ rfl)
      have hfe : (if e.path = p then { e with attrs := updAttrs e.attrs a v } else e) = e := by
        rw [if_neg hep]
      rw [hfe]
      unfold attrAt
      rw [List.find?_cons_of_pos _ (by simpa using hq),
        List.find?_cons_of_pos _ (by simpa using hq)]
    · have hfep := path_setAttrAt_elem e p a v
      unfold attrAt
      rw [List.find?_cons_of_neg _ (by simpa [hfep] using hq),
        List.find?_cons_of_neg _ (by simpa using hq)]
      exact ih

theorem attrAt_setAttrAt_other (d : Doc) (p : List Nat) (a v : String)
    (b : String) (hb : b ≠ a) :
    attrAt (setAttrAt d p a v) p b = attrAt d p b := by
  induction d with
  | nil => rfl
  | cons e d ih =>
    show attrAt ((if e.path = p then { e with attrs := updAttrs e.attrs a v } else e)
      :: setAttrAt d p a v) p b = attrAt (e :: d) p b
    by_cases hq : e.path = p
    · rw [if_pos hq]
      unfold attrAt
      rw [List.find?_cons_of_pos _ (by simpa using hq),
        List.find?_cons_of_pos _ (by simpa using hq)]
      exact lookupA_updAttrs_ne e.attrs a v b hb
    · rw [if_neg hq]
      unfold attrAt
      rw [List.find?_cons_of_neg _ (by simpa using hq),
        List.find?_cons_of_neg _ (by simpa using hq)]
      exact ih

/-! ## Decomposition of the editing pipeline -/

theorem modify_ok (d : Doc) (k c : String) (q : List Nat)
    (h : srgbEditLoc d k = some q) :
    modify_secondary_color d k c = Except.ok (setAttrAt d q "val" c) := by
  unfold srgbEditLoc at h
  unfold modify_secondary_color
  cases hh : (xpathClrKey d k).head? with
  | none => rw [hh] at h; simp at h
  | some p =>
    rw [hh] at h
    simp only [Option.some_bind] at h
    simp [h]

theorem modifyOutcome_none (d : Doc) (k : String) (q : List Nat)
    (h : srgbEditLoc d k = some q) : modifyOutcome d k = none := by
  unfold srgbEditLoc at h
  unfold modifyOutcome
  cases hh : (xpathClrKey d k).head? with
  | none => rw [hh] at h; simp at h
  | some p =>
    rw [hh] at h
    simp only [Option.some_bind] at h
    simp [h]

theorem modify_err (d : Doc) (k c : String) (h : srgbEditLoc d k = none) :
    ∃ e, modify_secondary_color d k c = Except.error e ∧ modifyOutcome d k = some e := by
  unfold srgbEditLoc at h
  unfold modify_secondary_color modifyOutcome
  cases hh : (xpathClrKey d k).head? with
  | none => exact ⟨k ++ " not found in theme", rfl, rfl⟩
  | some p =>
    rw [hh] at h
    simp only [Option.some_bind] at h
    refine ⟨"srgbClr is not a _Element", ?_, ?_⟩ <;> simp [h]

theorem skel_applyColors (entries : List (String × String)) (d : Doc) :
    skel (applyColors entries d).1 = skel d := by
  induction entries generalizing d with
  | nil => rfl
  | cons kc rest ih =>
    obtain ⟨k, c⟩ := kc
    show skel (match modify_secondary_color d k c with
      | Except.ok d2 => applyColors rest d2
      | Except.error e => ((applyColors rest d).1, e :: (applyColors rest d).2)).1 = skel d
    cases hloc : srgbEditLoc d k with
    | some q =>
      rw [modify_ok d k c q hloc]
      rw [ih (setAttrAt d q "val" c)]
      exact skel_setAttrAt d q "val" c
    | none =>
      obtain ⟨e, he, _⟩ := modify_err d k c hloc
      rw [he]
      exact ih d

theorem srgbEditLoc_congr (d d2 : Doc) (k : String) (h : skel d2 = skel d) :
    srgbEditLoc d2 k = srgbEditLoc d k := by
  unfold srgbEditLoc xpathClrKey findDesc
  rw [h]

theorem modifyOutcome_congr (d d2 : Doc) (k : String) (h : skel d2 = skel d) :
    modifyOutcome d2 k = modifyOutcome d k := by
  unfold modifyOutcome xpathClrKey findDesc
  rw [h]

theorem applyColors_errs (entries : List (String × String)) (d : Doc) :
    (applyColors entries d).2 = entries.filterMap (fun kc => modifyOutcome d kc.1) := by
  induction entries generalizing d with
  | nil => rfl
  | cons kc rest ih =>
    obtain ⟨k, c⟩ := kc
    show (match modify_secondary_color d k c with
      | Except.ok d2 => applyColors rest d2
      | Except.error e => ((applyColors rest d).1, e :: (applyColors rest d).2)).2
      = List.filterMap (fun kc => modifyOutcome d kc.1) ((k, c) :: rest)
    cases hloc : srgbEditLoc d k with
    | some q =>
      rw [modify_ok d k c q hloc]
      rw [ih (setAttrAt d q "val" c)]
      rw [List.filterMap_cons]
      rw [modifyOutcome_none d k q hloc]
      apply List.filterMap_congr
      intro kc _
      exact modifyOutcome_congr d (setAttrAt d q "val" c) kc.1 (skel_setAttrAt d q "val" c)
    | none =>
      obtain ⟨e, he, ho⟩ := modify_err d k c hloc
      rw [he]
      show e :: (applyColors rest d).2 = _
      rw [ih d, List.filterMap_cons, ho]

theorem applyColors_frame (entries : List (String × String)) (d : Doc)
    (q : List Nat) (b : String)
    (hnot : ∀ kc ∈ entries, ∀ pq, srgbEditLoc d kc.1 = some pq → ¬(q = pq ∧ b = "val")) :
    attrAt (applyColors entries d).1 q b = attrAt d q b := by
  induction entries generalizing d with
  | nil => rfl
  | cons kc rest ih =>
    obtain ⟨k, c⟩ := kc
    show attrAt (match modify_secondary_color d k c with
      | Except.ok d2 => applyColors rest d2
      | Except.error e => ((applyColors rest d).1, e :: (applyColors rest d).2)).1 q b
      = attrAt d q b
    cases hloc : srgbEditLoc d k with
    | some pq =>
      rw [modify_ok d k c pq hloc]
      have hstep : attrAt (setAttrAt d pq "val" c) q b = attrAt d q b := by
        by_cases hq : q = pq
        · subst hq
          have hbv : b ≠ "val" := by
            intro hb
            exact hnot (k, c) (List.mem_cons_self _ _) q hloc ⟨rfl, hb⟩
          exact attrAt_setAttrAt_other d q "val" c b hbv
        · exact attrAt_setAttrAt_ne d pq "val" c q b hq
      rw [← hstep]
      apply ih
      intro kc2 hm pq2 hloc2
      apply hnot kc2 (List.mem_cons_of_mem _ hm) pq2
      rw [← hloc2]
      exact (srgbEditLoc_congr d (setAttrAt d pq "val" c) kc2.1
        (skel_setAttrAt d pq "val" c)).symm
    | none =>
      obtain ⟨e, he, _⟩ := modify_err d k c hloc
      rw [he]
      show attrAt (applyColors rest d).1 q b = attrAt d q b
      apply ih
      intro kc2 hm pq2 hloc2
      exact hnot kc2 (List.mem_cons_of_mem _ hm) pq2 hloc2

theorem findDesc_congr (d d2 : Doc) (base : List Nat) (t : String)
    (h : skel d2 = skel d) : findDesc d2 base t = findDesc d base t := by
  unfold findDesc
  rw [h]

theorem set_font_cases (d : Doc) (pf : List Nat) (ft fn : String) :
    set_font d pf ft fn = d
    ∨ ∃ pl, (findDesc d pf ft).bind (fun pm => findDesc d pm "a:latin") = some pl
        ∧ set_font d pf ft fn = setAttrAt d pl "typeface" fn := by
  unfold set_font
  cases h1 : findDesc d pf ft with
  | none => exact Or.inl rfl
  | some pm =>
    cases h2 : findDesc d pm "a:latin" with
    | none => exact Or.inl (by simp [h2])
    | some pl => exact Or.inr ⟨pl, by simp [h2], by simp [h2]⟩

theorem skel_set_font (d : Doc) (pf : List Nat) (ft fn : String) :
    skel (set_font d pf ft fn) = skel d := by
  rcases set_font_cases d pf ft fn with h | ⟨pl, _, h⟩
  · rw [h]
  · rw [h]
    exact skel_setAttrAt d pl "typeface" fn

theorem latinEditLoc_eq (d tplD : Doc) (pf : List Nat) (ft : String)
    (hskel : skel d = skel tplD) (hpf : findDesc tplD [] "a:fontScheme" = some pf) :
    (findDesc d pf ft).bind (fun pm => findDesc d pm "a:latin") = latinEditLoc tplD ft := by
  unfold latinEditLoc
  rw [hpf, Option.some_bind]
  unfold findDesc
  rw [hskel]

theorem set_fonts_ok (d : Doc) (hf bf : String) (pf : List Nat)
    (h : findDesc d [] "a:fontScheme" = some pf) :
    set_fonts d hf bf
      = Except.ok (set_font (set_font d pf "a:majorFont" hf) pf "a:minorFont" bf) := by
  unfold set_fonts
  simp [h]

theorem set_fonts_err (d : Doc) (hf bf : String)
    (h : findDesc d [] "a:fontScheme" = none) :
    set_fonts d hf bf = Except.error "Font scheme is not a _Element" := by
  unfold set_fonts
  simp [h]

theorem to_pptx_fst (tc : ThemeColors) : (tc.to_pptx_format).map Prod.fst = tenKeys := rfl

theorem mem_themeEditLocs_val (d : Doc) (k : String) (q : List Nat)
    (hk : k ∈ tenKeys) (hloc : srgbEditLoc d k = some q) :
    (q, "val") ∈ themeEditLocs d := by
  unfold themeEditLocs
  exact List.mem_append_left _
    (List.mem_map_of_mem _ (List.mem_filterMap.mpr ⟨k, hk, hloc⟩))

theorem mem_themeEditLocs_typeface (d : Doc) (ft : String) (q : List Nat)
    (hft : ft ∈ ["a:majorFont", "a:minorFont"]) (hloc : latinEditLoc d ft = some q) :
    (q, "typeface") ∈ themeEditLocs d := by
  unfold themeEditLocs
  exact List.mem_append_right _
    (List.mem_map_of_mem _ (List.mem_filterMap.mpr ⟨ft, hft, hloc⟩))

/-- Full characterisation of a successful create_ppt run in terms of the
pipeline stages computed on the template. -/
theorem create_ppt_ok_decomp (s : Schema) (tpl : PrsState) (st : PrsState)
    (errs : List String) (h : create_ppt s tpl = Except.ok (st, errs)) :
    RGBColorNew s.background.color.1 s.background.color.2.1 s.background.color.2.2
        = some s.background.color
    ∧ tagAt tpl.theme [] = some "a:theme"
    ∧ st.bgFill = { isSolid := true, foreColor := some s.background.color }
    ∧ errs = (applyColors (s.theme.colors.to_pptx_format) tpl.theme).2
    ∧ ∃ pf, findDesc tpl.theme [] "a:fontScheme" = some pf
        ∧ st.theme = set_font
            (set_font (applyColors (s.theme.colors.to_pptx_format) tpl.theme).1
              pf "a:majorFont" s.theme.fonts.header.name)
            pf "a:minorFont" s.theme.fonts.body.name := by
  unfold create_ppt at h
  cases hR : RGBColorNew s.background.color.1 s.background.color.2.1
      s.background.color.2.2 with
  | none =>
    simp only [hR] at h
    cases h
  | some rgb =>
    have hrgb : rgb = s.background.color := by
      unfold RGBColorNew at hR
      by_cases hc : 0 ≤ s.background.color.1 ∧ s.background.color.1 ≤ 255
          ∧ 0 ≤ s.background.color.2.1 ∧ s.background.color.2.1 ≤ 255
          ∧ 0 ≤ s.background.color.2.2 ∧ s.background.color.2.2 ≤ 255
      · rw [if_pos hc] at hR
        injection hR with hR2
        exact hR2.symm
      · rw [if_neg hc] at hR
        cases hR
    subst hrgb
    simp only [hR] at h
    by_cases hroot : tagAt tpl.theme [] = some "a:theme"
    · rw [if_pos hroot] at h
      cases hsf : set_fonts (applyColors (s.theme.colors.to_pptx_format) tpl.theme).1
          s.theme.fonts.header.name s.theme.fonts.body.name with
      | error e =>
        simp only [hsf] at h
        cases h
      | ok d2 =>
        simp only [hsf] at h
        injection h with h2
        injection h2 with hst herrs
        cases hpf : findDesc (applyColors (s.theme.colors.to_pptx_format) tpl.theme).1
            [] "a:fontScheme" with
        | none =>
          rw [set_fonts_err _ _ _ hpf] at hsf
          cases hsf
        | some pf =>
          rw [set_fonts_ok _ _ _ pf hpf] at hsf
          injection hsf with hd2
          have hpf2 : findDesc tpl.theme [] "a:fontScheme" = some pf := by
            rw [← findDesc_congr tpl.theme
              (applyColors (s.theme.colors.to_pptx_format) tpl.theme).1 [] "a:fontScheme"
              (skel_applyColors _ _)]
            exact hpf
          refine ⟨rfl, hroot, ?_, herrs.symm, pf, hpf2, ?_⟩
          · rw [← hst]
          · rw [← hst, ← hd2]
    · rw [if_neg hroot] at h
      cases h

theorem attrAt_set_font_frame (dcur tplD : Doc) (pf : List Nat) (ft fn : String)
    (q : List Nat) (b : String)
    (hskel : skel dcur = skel tplD)
    (hpf : findDesc tplD [] "a:fontScheme" = some pf)
    (hft : ft ∈ ["a:majorFont", "a:minorFont"])
    (hnot : (q, b) ∉ themeEditLocs tplD) :
    attrAt (set_font dcur pf ft fn) q b = attrAt dcur q b := by
  rcases set_font_cases dcur pf ft fn with hcase | ⟨pl, hpl, hcase⟩
  · rw [hcase]
  · rw [hcase]
    have hlatin : latinEditLoc tplD ft = some pl := by
      rw [← latinEditLoc_eq dcur tplD pf ft hskel hpf]
      exact hpl
    have hmem := mem_themeEditLocs_typeface tplD ft pl hft hlatin
    by_cases hq : q = pl
    · subst hq
      have hb : b ≠ "typeface" := by
        intro hb
        exact hnot (by rw [hb]; exact hmem)
      exact attrAt_setAttrAt_other dcur q "typeface" fn b hb
    · exact attrAt_setAttrAt_ne dcur pl "typeface" fn q b hq

/-- Frame property of a successful create_ppt run: the theme document keeps
its skeleton (no element is added, removed, retagged or moved) and every
attribute outside the computed edit locations keeps its value; the only
other state touched is the slide-master background fill. -/
theorem create_ppt_frame_helper (s : Schema) (tpl st : PrsState) (errs : List String)
    (h : create_ppt s tpl = Except.ok (st, errs)) :
    skel st.theme = skel tpl.theme
    ∧ (∀ q b, (q, b) ∉ themeEditLocs tpl.theme →
        attrAt st.theme q b = attrAt tpl.theme q b)
    ∧ st.bgFill = { isSolid := true, foreColor := some s.background.color } := by
  obtain ⟨hR, hroot, hfill, herrs, pf, hpf, hthm⟩ := create_ppt_ok_decomp s tpl st errs h
  have hskelA : skel (applyColors (s.theme.colors.to_pptx_format) tpl.theme).1
      = skel tpl.theme := skel_applyColors _ _
  have hskel1 : skel (set_font (applyColors (s.theme.colors.to_pptx_format) tpl.theme).1
      pf "a:majorFont" s.theme.fonts.header.name) = skel tpl.theme := by
    rw [skel_set_font]
    exact hskelA
  refine ⟨?_, ?_, hfill⟩
  · rw [hthm, skel_set_font]
    exact hskel1
  · intro q b hnot
    rw [hthm]
    rw [attrAt_set_font_frame _ tpl.theme pf "a:minorFont" _ q b hskel1 hpf
      (by simp) hnot]
    rw [attrAt_set_font_frame _ tpl.theme pf "a:majorFont" _ q b hskelA hpf
      (by simp) hnot]
    apply applyColors_frame
    intro kc hm pq hloc hqb
    obtain ⟨hq, hb⟩ := hqb
    apply hnot
    rw [hq, hb]
    apply mem_themeEditLocs_val tpl.theme kc.1 pq _ hloc
    rw [← to_pptx_fst s.theme.colors]
    exact List.mem_map_of_mem Prod.fst hm

/-! ## Success and error paths of create_ppt -/

theorem create_ppt_success_helper (s : Schema) (tpl : PrsState)
    (hbg : 0 ≤ s.background.color.1 ∧ s.background.color.1 ≤ 255
        ∧ 0 ≤ s.background.color.2.1 ∧ s.background.color.2.1 ≤ 255
        ∧ 0 ≤ s.background.color.2.2 ∧ s.background.color.2.2 ≤ 255)
    (hroot : tagAt tpl.theme [] = some "a:theme")
    (pf : List Nat) (hpf : findDesc tpl.theme [] "a:fontScheme" = some pf) :
    ∃ st, create_ppt s tpl = Except.ok (st,
      (s.theme.colors.to_pptx_format).filterMap
        (fun kc => modifyOutcome tpl.theme kc.1)) := by
  have hpf2 : findDesc (applyColors (s.theme.colors.to_pptx_format) tpl.theme).1
      [] "a:fontScheme" = some pf := by
    exact (findDesc_congr tpl.theme _ [] "a:fontScheme" (skel_applyColors _ _)).trans hpf
  have hsf := set_fonts_ok (applyColors (s.theme.colors.to_pptx_format) tpl.theme).1
    s.theme.fonts.header.name s.theme.fonts.body.name pf hpf2
  simp only [create_ppt, RGBColorNew, if_pos hbg, if_pos hroot, hsf]
  apply Exists.intro
  rw [applyColors_errs]

theorem create_ppt_rootError_helper (s : Schema) (tpl : PrsState)
    (hbg : 0 ≤ s.background.color.1 ∧ s.background.color.1 ≤ 255
        ∧ 0 ≤ s.background.color.2.1 ∧ s.background.color.2.1 ≤ 255
        ∧ 0 ≤ s.background.color.2.2 ∧ s.background.color.2.2 ≤ 255)
    (hroot : ¬ tagAt tpl.theme [] = some "a:theme") :
    create_ppt s tpl = Except.error "Theme part is not a CT_OfficeStyleSheet" := by
  simp only [create_ppt, RGBColorNew, if_pos hbg, if_neg hroot]

theorem create_ppt_fontError_helper (s : Schema) (tpl : PrsState)
    (hbg : 0 ≤ s.background.color.1 ∧ s.background.color.1 ≤ 255
        ∧ 0 ≤ s.background.color.2.1 ∧ s.background.color.2.1 ≤ 255
        ∧ 0 ≤ s.background.color.2.2 ∧ s.background.color.2.2 ≤ 255)
    (hroot : tagAt tpl.theme [] = some "a:theme")
    (hpf : findDesc tpl.theme [] "a:fontScheme" = none) :
    create_ppt s tpl = Except.error "Font scheme is not a _Element" := by
  have hpf2 : findDesc (applyColors (s.theme.colors.to_pptx_format) tpl.theme).1
      [] "a:fontScheme" = none := by
    exact (findDesc_congr tpl.theme _ [] "a:fontScheme" (skel_applyColors _ _)).trans hpf
  have hsf := set_fonts_err (applyColors (s.theme.colors.to_pptx_format) tpl.theme).1
    s.theme.fonts.header.name s.theme.fonts.body.name hpf2
  simp only [create_ppt, RGBColorNew, if_pos hbg, if_pos hroot, hsf]

/-! ## Stream and trace lemmas -/

theorem string_join_cons (c : String) (cs : List String) :
    String.join (c :: cs) = c ++ String.join cs := by
  apply String.ext
  simp [String.join_eq, String.data_append]

theorem streamLoop_go (chunks : List String) : ∀ a es,
    chunks.foldl (fun acc c => (acc.1 ++ c, acc.2 ++ [Effect.stdoutWrite c])) (a, es)
      = (a ++ String.join chunks, es ++ chunks.map Effect.stdoutWrite) := by
  induction chunks with
  | nil =>
    intro a es
    simp [String.join]
  | cons c cs ih =>
    intro a es
    rw [List.foldl_cons, ih, string_join_cons, List.map_cons]
    refine congrArg₂ Prod.mk ?_ ?_
    · rw [String.append_assoc]
    · simp

theorem streamLoop_spec (chunks : List String) :
    (streamLoop chunks).1 = String.join chunks
    ∧ (streamLoop chunks).2 = chunks.map Effect.stdoutWrite := by
  unfold streamLoop
  rw [streamLoop_go chunks "" []]
  constructor
  · apply String.ext
    simp [String.data_append]
  · simp

theorem savesOf_pre (chunks : List String) :
    savesOf (Effect.genRequest :: chunks.map Effect.stdoutWrite) = [] := by
  unfold savesOf
  rw [List.filterMap_cons]
  simp only []
  induction chunks with
  | nil => rfl
  | cons c cs ih => simp only [List.map_cons, List.filterMap_cons]; exact ih

theorem stdoutsOf_pre (chunks : List String) :
    stdoutsOf (Effect.genRequest :: chunks.map Effect.stdoutWrite) = chunks := by
  unfold stdoutsOf
  rw [List.filterMap_cons]
  simp only []
  induction chunks with
  | nil => rfl
  | cons c cs ih =>
    simp only [List.map_cons, List.filterMap_cons]
    rw [ih]

theorem genCount_pre (chunks : List String) :
    genCount (Effect.genRequest :: chunks.map Effect.stdoutWrite) = 1 := by
  unfold genCount
  rw [List.countP_cons]
  simp only [if_pos rfl]
  induction chunks with
  | nil => rfl
  | cons c cs ih =>
    simp only [List.map_cons, List.countP_cons, if_neg (by simp : ¬(false = true)),
      Nat.add_zero]
    exact ih

/-- Case analysis of a program run: the save effect exists exactly when
validation and create_ppt both succeed, and then it is the last effect. -/
theorem programRun_cases (chunks : List String) (validate : String → Option Schema)
    (tpl : PrsState) (dir : String) :
    (programRun chunks validate tpl dir
        = Effect.genRequest :: chunks.map Effect.stdoutWrite
      ∧ ((validate (String.join chunks) = none)
         ∨ ∃ s e, validate (String.join chunks) = some s
             ∧ create_ppt s tpl = Except.error e))
    ∨ (∃ s r, validate (String.join chunks) = some s
        ∧ create_ppt s tpl = Except.ok r
        ∧ programRun chunks validate tpl dir
          = Effect.genRequest :: chunks.map Effect.stdoutWrite
              ++ [Effect.save (dir ++ "/output.pptx")]) := by
  have h1 := (streamLoop_spec chunks).1
  have h2 := (streamLoop_spec chunks).2
  cases hv : validate (String.join chunks) with
  | none =>
    refine Or.inl ⟨?_, Or.inl rfl⟩
    unfold programRun
    simp only [h1, h2, hv]
  | some s =>
    cases hc : create_ppt s tpl with
    | error e =>
      refine Or.inl ⟨?_, Or.inr ⟨s, e, rfl, hc⟩⟩
      unfold programRun
      simp only [h1, h2, hv, hc]
    | ok r =>
      refine Or.inr ⟨s, r, rfl, hc, ?_⟩
      unfold programRun
      simp only [h1, h2, hv, hc]

/-! ## read_until_empty_line lemmas -/

theorem read_until_spec (lines : List String) :
    (read_until_empty_line lines).1
      = String.join (lines.takeWhile (fun l => !(decide (pyStrip l = ""))))
    ∧ (read_until_empty_line lines).2
      = (lines.dropWhile (fun l => !(decide (pyStrip l = "")))).tail := by
  induction lines with
  | nil => exact ⟨rfl, rfl⟩
  | cons l ls ih =>
    by_cases h : pyStrip l = ""
    · constructor
      · show (if pyStrip l = "" then ("", ls) else
          (l ++ (read_until_empty_line ls).1, (read_until_empty_line ls).2)).1 = _
        rw [if_pos h, List.takeWhile_cons]
        simp [h, String.join]
      · show (if pyStrip l = "" then ("", ls) else
          (l ++ (read_until_empty_line ls).1, (read_until_empty_line ls).2)).2 = _
        rw [if_pos h, List.dropWhile_cons]
        simp [h]
    · have hd : (!(decide (pyStrip l = ""))) = true := by simp [h]
      constructor
      · show (if pyStrip l = "" then ("", ls) else
          (l ++ (read_until_empty_line ls).1, (read_until_empty_line ls).2)).1 = _
        rw [if_neg h, List.takeWhile_cons, hd, if_pos rfl, string_join_cons, ih.1]
      · show (if pyStrip l = "" then ("", ls) else
          (l ++ (read_until_empty_line ls).1, (read_until_empty_line ls).2)).2 = _
        rw [if_neg h, List.dropWhile_cons, hd, if_pos rfl]
        exact ih.2

theorem takeWhile_notBlank_all (lines : List String)
    (h : ∀ l ∈ lines, ¬ pyStrip l = "") :
    lines.takeWhile (fun l => !(decide (pyStrip l = ""))) = lines := by
  induction lines with
  | nil => rfl
  | cons l ls ih =>
    rw [List.takeWhile_cons]
    have hl := h l (List.mem_cons_self l ls)
    have hd : (!(decide (pyStrip l = ""))) = true := by simp [hl]
    rw [hd, if_pos rfl, ih (fun x hx => h x (List.mem_cons_of_mem l hx))]

/-- Length and character class of the hex string of an in-range color. -/
theorem hexstr_ok (cc : ColorChoice) (h : colorInRange cc) :
    (rgb_tuple_to_hex cc.color).length = 6
    ∧ ∀ c ∈ (rgb_tuple_to_hex cc.color).data, isUpperHexDigit c = true := by
  obtain ⟨h1, h2, h3, h4, h5, h6⟩ := h
  exact ⟨rgb_tuple_to_hex_length cc.color.1 cc.color.2.1 cc.color.2.2 h1 h2 h3 h4 h5 h6,
    rgb_tuple_to_hex_chars cc.color.1 cc.color.2.1 cc.color.2.2 h1 h2 h3 h4 h5 h6⟩

/-! ## Trace append lemmas -/

theorem savesOf_append (l1 l2 : List Effect) :
    savesOf (l1 ++ l2) = savesOf l1 ++ savesOf l2 := by
  unfold savesOf
  rw [List.filterMap_append]

theorem stdoutsOf_append (l1 l2 : List Effect) :
    stdoutsOf (l1 ++ l2) = stdoutsOf l1 ++ stdoutsOf l2 := by
  unfold stdoutsOf
  rw [List.filterMap_append]

theorem genCount_append (l1 l2 : List Effect) :
    genCount (l1 ++ l2) = genCount l1 + genCount l2 := by
  unfold genCount
  rw [List.countP_append]

/-! ## The claims -/

/-- C1, counterexample: the ValueError raised by the fontScheme check of
set_fonts is not caught in create_ppt.  On a theme part whose root is a
CT_OfficeStyleSheet but which has no a:fontScheme element, create_ppt
propagates the exception instead of printing it and continuing, so the claim
that no such check ever propagates an exception out of create_ppt is false. -/
theorem claim_C1_counterexample :
    create_ppt s0 tplNoFonts = Except.error "Font scheme is not a _Element"
    ∧ ∀ st errs, ¬ create_ppt s0 tplNoFonts = Except.ok (st, errs) := by
  refine ⟨rfl, ?_⟩
  intro st errs h
  have h2 : Except.error (α := PrsState × List String) "Font scheme is not a _Element"
      = Except.ok (st, errs) := h
  exact Except.noConfusion h2

/-- C1 (amended): for the ten color-scheme keys, a missing key element or a
missing srgbClr child makes modify_secondary_color raise ValueError, which
create_ppt catches and prints, proceeding to the remaining keys and the font
edits (the run succeeds and collects exactly the per-key error messages);
however the CT_OfficeStyleSheet check and the fontScheme check inside
set_fonts raise ValueError that propagates out of create_ppt uncaught. -/
theorem claim_C1 (s : Schema) (tpl : PrsState) (hbg : colorInRange s.background) :
    (∀ pf, tagAt tpl.theme [] = some "a:theme" →
      findDesc tpl.theme [] "a:fontScheme" = some pf →
      ∃ st, create_ppt s tpl = Except.ok (st,
        (s.theme.colors.to_pptx_format).filterMap
          (fun kc => modifyOutcome tpl.theme kc.1)))
    ∧ (¬ tagAt tpl.theme [] = some "a:theme" →
        create_ppt s tpl = Except.error "Theme part is not a CT_OfficeStyleSheet")
    ∧ (tagAt tpl.theme [] = some "a:theme" →
        findDesc tpl.theme [] "a:fontScheme" = none →
        create_ppt s tpl = Except.error "Font scheme is not a _Element") := by
  obtain ⟨h1, h2, h3, h4, h5, h6⟩ := hbg
  refine ⟨?_, ?_, ?_⟩
  · intro pf hroot hpf
    exact create_ppt_success_helper s tpl ⟨h1, h2, h3, h4, h5, h6⟩ hroot pf hpf
  · intro hroot
    exact create_ppt_rootError_helper s tpl ⟨h1, h2, h3, h4, h5, h6⟩ hroot
  · intro hroot hpf
    exact create_ppt_fontError_helper s tpl ⟨h1, h2, h3, h4, h5, h6⟩ hroot hpf

/-- C1 witness: on the default template every check passes and create_ppt
succeeds; on the fontScheme-free theme the set_fonts ValueError escapes. -/
theorem claim_C1_witness :
    (create_ppt s0 defaultPrs).isOk = true
    ∧ create_ppt s0 tplNoFonts = Except.error "Font scheme is not a _Element" := by
  constructor
  · obtain ⟨st, hst⟩ := (claim_C1 s0 defaultPrs (by decide)).1 [0, 1] rfl rfl
    rw [hst]
    rfl
  · exact (claim_C1 s0 tplNoFonts (by decide)).2.2 rfl rfl

/-- C2: on byte-range components rgb_tuple_to_hex returns exactly the
6-character uppercase hexadecimal encoding of the triple: its characters are
the two base-16 digits of r, then of g, then of b (zero-padded, uppercase
digit alphabet), so parsing the three digit pairs recovers the original
components; consequently the encoding is injective, and every value of the
dictionary built by ThemeColors.to_pptx_format from in-range color choices
is such a 6-digit uppercase hex string. -/
theorem claim_C2 :
    (∀ r g b : Int, 0 ≤ r → r ≤ 255 → 0 ≤ g → g ≤ 255 → 0 ≤ b → b ≤ 255 →
      (rgb_tuple_to_hex (r, g, b)).data
        = [hexDigitChar (r.toNat / 16), hexDigitChar (r.toNat % 16),
           hexDigitChar (g.toNat / 16), hexDigitChar (g.toNat % 16),
           hexDigitChar (b.toNat / 16), hexDigitChar (b.toNat % 16)]
      ∧ ∀ c1 c2 c3 c4 c5 c6,
          (rgb_tuple_to_hex (r, g, b)).data = [c1, c2, c3, c4, c5, c6] →
          (hexPairVal c1 c2 : Int) = r ∧ (hexPairVal c3 c4 : Int) = g
            ∧ (hexPairVal c5 c6 : Int) = b)
    ∧ (∀ r g b : Int, 0 ≤ r → r ≤ 255 → 0 ≤ g → g ≤ 255 → 0 ≤ b → b ≤ 255 →
      (rgb_tuple_to_hex (r, g, b)).length = 6
      ∧ ∀ c ∈ (rgb_tuple_to_hex (r, g, b)).data, isUpperHexDigit c = true)
    ∧ (∀ r g b r2 g2 b2 : Int,
        0 ≤ r → r ≤ 255 → 0 ≤ g → g ≤ 255 → 0 ≤ b → b ≤ 255 →
        0 ≤ r2 → r2 ≤ 255 → 0 ≤ g2 → g2 ≤ 255 → 0 ≤ b2 → b2 ≤ 255 →
        rgb_tuple_to_hex (r, g, b) = rgb_tuple_to_hex (r2, g2, b2) →
        r = r2 ∧ g = g2 ∧ b = b2)
    ∧ (∀ tc : ThemeColors,
        (∀ cc ∈ [tc.dark, tc.light, tc.accent1, tc.accent2, tc.accent3,
          tc.accent4, tc.accent5, tc.accent6, tc.hyperlink,
          tc.followed_hyperlink], colorInRange cc) →
        ∀ v ∈ (tc.to_pptx_format).map Prod.snd,
          v.length = 6 ∧ ∀ c ∈ v.data, isUpperHexDigit c = true) := by
  refine ⟨?_, ?_, ?_, ?_⟩
  · intro r g b h1 h2 h3 h4 h5 h6
    have hdata := rgb_tuple_to_hex_digits r g b h1 h2 h3 h4 h5 h6
    refine ⟨hdata, ?_⟩
    intro c1 c2 c3 c4 c5 c6 heq
    rw [hdata] at heq
    injection heq with e1 heq
    injection heq with e2 heq
    injection heq with e3 heq
    injection heq with e4 heq
    injection heq with e5 heq
    injection heq with e6 _
    subst e1
    subst e2
    subst e3
    subst e4
    subst e5
    subst e6
    have hrlt : r.toNat < 256 := by omega
    have hglt : g.toNat < 256 := by omega
    have hblt : b.toNat < 256 := by omega
    rw [pyFormat02X_digits_parse r.toNat hrlt, pyFormat02X_digits_parse g.toNat hglt,
      pyFormat02X_digits_parse b.toNat hblt]
    exact ⟨Int.toNat_of_nonneg h1, Int.toNat_of_nonneg h3, Int.toNat_of_nonneg h5⟩
  · intro r g b h1 h2 h3 h4 h5 h6
    exact ⟨rgb_tuple_to_hex_length r g b h1 h2 h3 h4 h5 h6,
      rgb_tuple_to_hex_chars r g b h1 h2 h3 h4 h5 h6⟩
  · intro r g b r2 g2 b2 h1 h2 h3 h4 h5 h6 k1 k2 k3 k4 k5 k6 heq
    exact rgb_tuple_to_hex_inj r g b r2 g2 b2 h1 h2 h3 h4 h5 h6 k1 k2 k3 k4 k5 k6 heq
  · intro tc hall v hv
    simp only [ThemeColors.to_pptx_format, List.map_cons, List.map_nil,
      List.mem_cons, List.not_mem_nil, or_false] at hv
    rcases hv with rfl | rfl | rfl | rfl | rfl | rfl | rfl | rfl | rfl | rfl
    · exact hexstr_ok tc.dark (hall tc.dark (by simp))
    · exact hexstr_ok tc.light (hall tc.light (by simp))
    · exact hexstr_ok tc.accent1 (hall tc.accent1 (by simp))
    · exact hexstr_ok tc.accent2 (hall tc.accent2 (by simp))
    · exact hexstr_ok tc.accent3 (hall tc.accent3 (by simp))
    · exact hexstr_ok tc.accent4 (hall tc.accent4 (by simp))
    · exact hexstr_ok tc.accent5 (hall tc.accent5 (by simp))
    · exact hexstr_ok tc.accent6 (hall tc.accent6 (by simp))
    · exact hexstr_ok tc.hyperlink (hall tc.hyperlink (by simp))
    · exact hexstr_ok tc.followed_hyperlink (hall tc.followed_hyperlink (by simp))

/-- C2 witness at the concrete triple (31, 73, 125): its encoding is the
string 1F497D, six uppercase hex digits whose pairs are the base-16 digits
of the components. -/
theorem claim_C2_witness :
    (rgb_tuple_to_hex ((31 : Int), (73 : Int), (125 : Int))).data
      = ['1', 'F', '4', '9', '7', 'D']
    ∧ (rgb_tuple_to_hex ((31 : Int), (73 : Int), (125 : Int))).length = 6 := by
  constructor
  · rw [(claim_C2.1 31 73 125 (by decide) (by decide) (by decide) (by decide)
      (by decide) (by decide)).1]
    decide
  · exact (claim_C2.2.1 31 73 125 (by decide) (by decide) (by decide) (by decide)
      (by decide) (by decide)).1

/-- C3: the program issues the generate request first, echoes and
concatenates the stream, and the string it validates is exactly the joined
stream; a save effect for dir/output.pptx happens only when validation (and
the subsequent create_ppt) succeed, in which case it is the final effect
after all stdout writes; when validation raises, or create_ppt raises, no
presentation file is written. -/
theorem claim_C3 (chunks : List String) (validate : String → Option Schema)
    (tpl : PrsState) (dir : String) :
    (validate (String.join chunks) = none →
      savesOf (programRun chunks validate tpl dir) = [])
    ∧ (∀ s e, validate (String.join chunks) = some s →
        create_ppt s tpl = Except.error e →
        savesOf (programRun chunks validate tpl dir) = [])
    ∧ (∀ s r, validate (String.join chunks) = some s →
        create_ppt s tpl = Except.ok r →
        programRun chunks validate tpl dir
          = Effect.genRequest :: chunks.map Effect.stdoutWrite
              ++ [Effect.save (dir ++ "/output.pptx")]) := by
  rcases programRun_cases chunks validate tpl dir with ⟨hpr, hv⟩ | ⟨s, r, hv, hc, hpr⟩
  · refine ⟨?_, ?_, ?_⟩
    · intro _
      rw [hpr]
      exact savesOf_pre chunks
    · intro s e _ _
      rw [hpr]
      exact savesOf_pre chunks
    · intro s r hs hcok
      rcases hv with hnone | ⟨s2, e2, hv2, hc2⟩
      · rw [hs] at hnone
        cases hnone
      · have hse : s2 = s := Option.some.inj (hv2.symm.trans hs)
        subst hse
        rw [hcok] at hc2
        cases hc2
  · refine ⟨?_, ?_, ?_⟩
    · intro hnone
      rw [hnone] at hv
      cases hv
    · intro s2 e2 hs hcerr
      have hse : s2 = s := Option.some.inj (hs.symm.trans hv)
      subst hse
      rw [hcerr] at hc
      cases hc
    · intro s2 r2 hs hcok
      exact hpr

/-- C3 witness: with a validator that rejects, the run writes no file. -/
theorem claim_C3_witness :
    savesOf (programRun ["ab", "cd"] (fun _ => none) defaultPrs "out") = [] :=
  (claim_C3 ["ab", "cd"] (fun _ => none) defaultPrs "out").1 rfl

/-- C4: pydantic validation of ColorChoice enforces no 0-255 bound on the
color components (the conint-constrained RGBType ended up as the field's
default, not its annotation): any integer triple is accepted verbatim, a
JSON object without a color field is accepted and the field receives the
unvalidated default, and an explicitly out-of-range triple is accepted. -/
theorem claim_C4 (r g b : Int) (s : String) :
    validateColorChoice (JVal.obj
      [("color", JVal.arr [JVal.num r, JVal.num g, JVal.num b]),
       ("rationale", JVal.str s)])
      = Except.ok { color := PyColorValue.rgb r g b, rationale := s }
    ∧ validateColorChoice (JVal.obj [("rationale", JVal.str s)])
      = Except.ok { color := PyColorValue.annotationDefault, rationale := s }
    ∧ validateColorChoice (JVal.obj
      [("color", JVal.arr [JVal.num 2000, JVal.num (-5), JVal.num 300]),
       ("rationale", JVal.str "x")])
      = Except.ok { color := PyColorValue.rgb 2000 (-5) 300, rationale := "x" } :=
  ⟨rfl, rfl, rfl⟩

/-- C5: a successful create_ppt run touches only the slide-master background
fill and, inside the theme XML, the val attribute of the first a:srgbClr
under each of the ten clrScheme keys and the typeface attribute of the first
a:latin under a:majorFont and a:minorFont of the fontScheme: the element
skeleton (paths and tags) is unchanged and every attribute outside the edit
locations keeps its value. -/
theorem claim_C5 (s : Schema) (tpl st : PrsState) (errs : List String)
    (h : create_ppt s tpl = Except.ok (st, errs)) :
    skel st.theme = skel tpl.theme
    ∧ (∀ q b, (q, b) ∉ themeEditLocs tpl.theme →
        attrAt st.theme q b = attrAt tpl.theme q b)
    ∧ st.bgFill = { isSolid := true, foreColor := some s.background.color } :=
  create_ppt_frame_helper s tpl st errs h

/-- C5 witness on the default template: the skeleton is preserved and the
name attribute of the fmtScheme element (not an edit location) is kept. -/
theorem claim_C5_witness :
    skel resultPrs0.theme = skel defaultPrs.theme
    ∧ attrAt resultPrs0.theme [0, 2] "name" = attrAt defaultPrs.theme [0, 2] "name" := by
  have h := claim_C5 s0 defaultPrs resultPrs0 [] rfl
  exact ⟨h.1, h.2.1 [0, 2] "name" (by decide)⟩

/-- C6: the string handed to schema validation is the in-order
concatenation of the streamed chunk responses, and exactly those chunks are
written to stdout in stream order. -/
theorem claim_C6 (chunks : List String) (validate : String → Option Schema)
    (tpl : PrsState) (dir : String) :
    (streamLoop chunks).1 = String.join chunks
    ∧ (streamLoop chunks).2 = chunks.map Effect.stdoutWrite
    ∧ stdoutsOf (programRun chunks validate tpl dir) = chunks := by
  refine ⟨(streamLoop_spec chunks).1, (streamLoop_spec chunks).2, ?_⟩
  rcases programRun_cases chunks validate tpl dir with ⟨hpr, _⟩ | ⟨s, r, _, _, hpr⟩
  · rw [hpr]
    exact stdoutsOf_pre chunks
  · rw [hpr]
    show stdoutsOf ((Effect.genRequest :: chunks.map Effect.stdoutWrite)
      ++ [Effect.save (dir ++ "/output.pptx")]) = chunks
    rw [stdoutsOf_append, stdoutsOf_pre]
    simp [stdoutsOf]

/-- C7: after a successful create_ppt run the slide-master background fill
is solid and its fore color is the RGBColor built from the schema's
background triple. -/
theorem claim_C7 (s : Schema) (tpl st : PrsState) (errs : List String)
    (h : create_ppt s tpl = Except.ok (st, errs)) :
    st.bgFill.isSolid = true
    ∧ st.bgFill.foreColor = some s.background.color
    ∧ RGBColorNew s.background.color.1 s.background.color.2.1
        s.background.color.2.2 = some s.background.color := by
  have hd := create_ppt_ok_decomp s tpl st errs h
  rw [hd.2.2.1]
  exact ⟨rfl, rfl, hd.1⟩

/-- C7 witness: the concrete run on s0 and the default template yields a
solid white background. -/
theorem claim_C7_witness :
    resultPrs0.bgFill.isSolid = true
    ∧ resultPrs0.bgFill.foreColor = some s0.background.color
    ∧ RGBColorNew s0.background.color.1 s0.background.color.2.1
        s0.background.color.2.2 = some s0.background.color :=
  claim_C7 s0 defaultPrs resultPrs0 [] rfl

/-- C8: every run issues exactly one generate request, hence at most one:
there is no retry, backoff or cancellation path in the trace. -/
theorem claim_C8 (chunks : List String) (validate : String → Option Schema)
    (tpl : PrsState) (dir : String) :
    genCount (programRun chunks validate tpl dir) = 1 := by
  rcases programRun_cases chunks validate tpl dir with ⟨hpr, _⟩ | ⟨s, r, _, _, hpr⟩
  · rw [hpr]
    exact genCount_pre chunks
  · rw [hpr]
    show genCount ((Effect.genRequest :: chunks.map Effect.stdoutWrite)
      ++ [Effect.save (dir ++ "/output.pptx")]) = 1
    rw [genCount_append, genCount_pre]
    rfl

/-- C9: read_until_empty_line returns the concatenation of the lines before
the first line that strips to empty; that line is consumed (the rest of the
stream starts right after it) but excluded from the result; a stream with no
such line is returned whole. -/
theorem claim_C9 (lines : List String) :
    (read_until_empty_line lines).1
      = String.join (lines.takeWhile (fun l => !(decide (pyStrip l = ""))))
    ∧ (read_until_empty_line lines).2
      = (lines.dropWhile (fun l => !(decide (pyStrip l = "")))).tail
    ∧ ((∀ l ∈ lines, ¬ pyStrip l = "") →
        (read_until_empty_line lines).1 = String.join lines) := by
  refine ⟨(read_until_spec lines).1, (read_until_spec lines).2, ?_⟩
  intro h
  rw [(read_until_spec lines).1, takeWhile_notBlank_all lines h]

/-- C9 witness: a stream without a blank line is returned in full. -/
theorem claim_C9_witness :
    (read_until_empty_line ["hello\n", "world"]).1
      = String.join ["hello\n", "world"] :=
  (claim_C9 ["hello\n", "world"]).2.2 (by decide)

/-- C10: to_pptx_format maps the schema's dark color to dk2 and its light
color to lt2, its key set is exactly the ten keys (dk1 and lt1 are absent),
and on the default template a successful create_ppt run leaves the dk1 and
lt1 scheme entries and their color children completely unchanged. -/
theorem claim_C10 :
    (∀ tc : ThemeColors,
      (tc.to_pptx_format).map Prod.fst = tenKeys
      ∧ "dk1" ∉ (tc.to_pptx_format).map Prod.fst
      ∧ "lt1" ∉ (tc.to_pptx_format).map Prod.fst
      ∧ ∃ rest, tc.to_pptx_format
          = ("dk2", rgb_tuple_to_hex tc.dark.color)
            :: ("lt2", rgb_tuple_to_hex tc.light.color) :: rest)
    ∧ ∀ s st errs, create_ppt s defaultPrs = Except.ok (st, errs) →
        ∀ q, q ∈ [[0, 0, 0], [0, 0, 0, 0], [0, 0, 1], [0, 0, 1, 0]] →
          tagAt st.theme q = tagAt defaultPrs.theme q
          ∧ ∀ b, attrAt st.theme q b = attrAt defaultPrs.theme q b := by
  constructor
  · intro tc
    refine ⟨rfl, ?_, ?_, ⟨_, rfl⟩⟩
    · rw [to_pptx_fst]
      decide
    · rw [to_pptx_fst]
      decide
  · intro s st errs h q hq
    have hfr := create_ppt_frame_helper s defaultPrs st errs h
    have hqn : q ∉ (themeEditLocs defaultPrs.theme).map Prod.fst := by
      simp only [List.mem_cons, List.not_mem_nil, or_false] at hq
      rcases hq with rfl | rfl | rfl | rfl <;> decide
    constructor
    · show tagAtS (skel st.theme) q = tagAtS (skel defaultPrs.theme) q
      rw [hfr.1]
    · intro b
      apply hfr.2.1 q b
      intro hmem
      exact hqn (List.mem_map_of_mem Prod.fst hmem)

/-- C10 witness: in the concrete run on the default template the dk1 sysClr
element keeps its tag and its val attribute. -/
theorem claim_C10_witness :
    tagAt resultPrs0.theme [0, 0, 0, 0] = tagAt defaultPrs.theme [0, 0, 0, 0]
    ∧ attrAt resultPrs0.theme [0, 0, 0, 0] "val"
        = attrAt defaultPrs.theme [0, 0, 0, 0] "val" :=
  ⟨(claim_C10.2 s0 resultPrs0 [] rfl [0, 0, 0, 0] (by decide)).1,
   (claim_C10.2 s0 resultPrs0 [] rfl [0, 0, 0, 0] (by decide)).2 "val"⟩
